import Mathlib

/-!
Shallow embedding of
`packages/studio-base/src/panels/ThreeDeeRender/renderables/GridMaps.ts`
(the grid-map decode → validate → colorize pipeline).

JavaScript numbers are modelled as exact rationals `ℚ`; NaN is modelled as
`none` in `Option ℚ` where a NaN can actually arise (the `ToNumber`
coercion of a non-numeric cell).  Byte buffers (`Uint8ClampedArray`) are
modelled as `List ℕ` together with the ECMAScript store conversion
`toUint8Clamp` (clamp to [0,255], round half to even).
-/

namespace GridMaps

/-- RGBA color record, components as JS numbers (exact rationals). -/
structure ColorRGBA where
  r : ℚ
  g : ℚ
  b : ℚ
  a : ℚ
deriving DecidableEq

/-- ROS time stamp (`sec`, `nsec`). -/
structure Time where
  sec : ℕ
  nsec : ℕ
deriving DecidableEq

/-- ROS message header. -/
structure Header where
  stamp : Time
  frame_id : String
deriving DecidableEq

structure Vector3 where
  x : ℚ
  y : ℚ
  z : ℚ
deriving DecidableEq

structure Quaternion where
  x : ℚ
  y : ℚ
  z : ℚ
  w : ℚ
deriving DecidableEq

structure Pose where
  position : Vector3
  orientation : Quaternion
deriving DecidableEq

/-- `std_msgs/MultiArrayDimension`: a declared dimension of a layer. -/
structure MultiArrayDimension where
  label : String
  size : ℕ
  stride : ℕ
deriving DecidableEq

/-- `std_msgs/MultiArrayLayout`. -/
structure MultiArrayLayout where
  dim : List MultiArrayDimension
  data_offset : ℕ
deriving DecidableEq

/-- `std_msgs/Float32MultiArray`: one grid-map layer (declared shape plus
flattened cell values). -/
structure Float32MultiArray where
  layout : MultiArrayLayout
  data : List ℚ
deriving DecidableEq

/-- `grid_map_msgs/GridMapInfo`: resolution and physical extents plus pose. -/
structure GridMapInfo where
  resolution : ℚ
  length_x : ℚ
  length_y : ℚ
  pose : Pose
deriving DecidableEq

/-- The fields of `grid_map_msgs/GridMap` that `GridMaps.ts` reads:
`header`, `info`, and the layer list `data`. -/
structure GridMap where
  header : Header
  info : GridMapInfo
  data : List Float32MultiArray
deriving DecidableEq

/-- `LayerSettingsGridMap` from `GridMaps.ts`.  The source stores the four
colors as CSS strings and parses them with `stringToRgba` (defined in
`../color`, outside `src/`) before any use; we model each settings color as
its parsed raw sRGB RGBA value with components in [0,1]. -/
structure LayerSettingsGridMap where
  visible : Bool
  frameLocked : Bool
  minColor : ColorRGBA
  maxColor : ColorRGBA
  unknownColor : ColorRGBA
  invalidColor : ColorRGBA
deriving DecidableEq

/-- Truncation toward zero of a rational, as JS `Math.trunc` / the integer
part used by ECMAScript `ToIntegerOrInfinity`. -/
def ratTrunc (q : ℚ) : ℤ :=
  if 0 ≤ q then ⌊q⌋ else -⌊-q⌋

/-- ECMAScript `ToInt32` on a JS number (`none` = NaN ↦ 0; otherwise
truncate toward zero, wrap modulo 2^32 into [-2^31, 2^31)). -/
def toInt32 : Option ℚ → ℤ
  | none => 0
  | some q =>
    let m := ratTrunc q % (2 ^ 32 : ℤ)
    if m < 2 ^ 31 then m else m - 2 ^ 32

/-- ECMAScript `ToUint8Clamp`, the store conversion of `Uint8ClampedArray`:
clamp to [0,255] and round to the nearest integer, ties to even. -/
def toUint8Clamp (q : ℚ) : ℕ :=
  if q ≤ 0 then 0
  else if 255 ≤ q then 255
  else if (⌊q⌋ : ℚ) + 1 / 2 < q then (⌊q⌋ + 1).toNat
  else if q < (⌊q⌋ : ℚ) + 1 / 2 then ⌊q⌋.toNat
  else if ⌊q⌋ % 2 = 0 then ⌊q⌋.toNat else (⌊q⌋ + 1).toNat

/-- `ToNumber` of the element `data[i]` read by the recolor loop of
`updateTexture`: `data` is the grid's layer list, so the element is either
a `Float32MultiArray` object (whose `ToPrimitive` is the string
"[object Object]", hence NaN) or `undefined` past the end (also NaN). -/
def toNumberOfDataElem : Option Float32MultiArray → Option ℚ
  | none => none
  | some _ => none

/-- `srgbToLinearUint8` from `GridMaps.ts`.  `SRGBToLinear` is imported
from `../color` (outside `src/`), so the gamma curve is taken as a
parameter `γ`; the alpha channel is scaled by 255 without gamma, and every
channel is truncated by `Math.trunc`. -/
def srgbToLinearUint8 (γ : ℚ → ℚ) (c : ColorRGBA) : ColorRGBA :=
  { r := (ratTrunc (γ c.r * 255) : ℚ)
    g := (ratTrunc (γ c.g * 255) : ℚ)
    b := (ratTrunc (γ c.b * 255) : ℚ)
    a := (ratTrunc (c.a * 255) : ℚ) }

/-- The per-cell branch of the recolor loop in `updateTexture`
(lines 349–375): given the four already-converted colors and the coerced
cell value, the RGBA quadruple computed before it is stored into the
`Uint8ClampedArray`. -/
def cellRGBA (minC maxC unkC invC : ColorRGBA) (value : ℤ) : ColorRGBA :=
  if value = -1 then
    unkC
  else if 0 ≤ value ∧ value ≤ 100 then
    let t : ℚ := (value : ℚ) / 100
    if t = 1 then ⟨0, 0, 0, 0⟩
    else
      ⟨minC.r + (maxC.r - minC.r) * t,
       minC.g + (maxC.g - minC.g) * t,
       minC.b + (maxC.b - minC.b) * t,
       minC.a + (maxC.a - minC.a) * t⟩
  else
    invC

/-- The four raster bytes actually written for one cell: each channel of
`cellRGBA` goes through the `Uint8ClampedArray` store conversion. -/
def cellBytes (minC maxC unkC invC : ColorRGBA) (value : ℤ) : List ℕ :=
  let c := cellRGBA minC maxC unkC invC value
  [toUint8Clamp c.r, toUint8Clamp c.g, toUint8Clamp c.b, toUint8Clamp c.a]

/-- Linear interpolation of two colors, channelwise: `c0 + (c1 - c0) * t`. -/
def lerpColor (c0 c1 : ColorRGBA) (t : ℚ) : ColorRGBA :=
  ⟨c0.r + (c1.r - c0.r) * t,
   c0.g + (c1.g - c0.g) * t,
   c0.b + (c1.b - c0.b) * t,
   c0.a + (c1.a - c0.a) * t⟩

/-- The per-cell mapping as the specification words it: unknown color at
-1; invalid color for value < -1 or value > 100; fully transparent black
at 100; otherwise the interpolation between min and max at t = value/100. -/
def colorRampSpec (minC maxC unkC invC : ColorRGBA) (value : ℤ) : ColorRGBA :=
  if value = -1 then unkC
  else if value < -1 ∨ 100 < value then invC
  else if value = 100 then ⟨0, 0, 0, 0⟩
  else lerpColor minC maxC ((value : ℚ) / 100)

/-- C1: the per-cell color mapping agrees with the specification's case
analysis: unknown color at -1, linear interpolation at t = value/100 on
[0,100] except that value 100 yields (0,0,0,0) regardless of the max
color, and the invalid color for every other value. -/
theorem cellRGBA_eq_colorRampSpec (minC maxC unkC invC : ColorRGBA) (value : ℤ) :
    cellRGBA minC maxC unkC invC value = colorRampSpec minC maxC unkC invC value := by
  unfold cellRGBA colorRampSpec lerpColor
  by_cases h1 : value = -1
  · simp [h1]
  · simp only [h1, if_false]
    by_cases h2 : value < -1 ∨ 100 < value
    · have h3 : ¬(0 ≤ value ∧ value ≤ 100) := by omega
      simp [h2, h3]
    · have h3 : 0 ≤ value ∧ value ≤ 100 := by omega
      simp only [h2, if_false, h3, if_true]
      have h100 : ((value : ℚ) / 100 = 1) ↔ value = 100 := by
        rw [div_eq_one_iff_eq (by norm_num : (100 : ℚ) ≠ 0)]
        exact_mod_cast Int.cast_injective.eq_iff
      by_cases h4 : value = 100
      · simp [h4]
      · have h5 : ¬((value : ℚ) / 100 = 1) := fun h => h4 (h100.mp h)
        simp [h4, h5]

/-- The two ways the layer-shape check of `_updateGridMapRenderable` can
fail: fewer than 2 declared dimensions, or the declared dimension sizes
summing to something other than `width * height`. -/
inductive ShapeError where
  | insufficientDimensions : ShapeError
  | sizeMismatch (expected actual : ℚ) : ShapeError
deriving DecidableEq

/-- Sum of a layer's declared dimension sizes, as accumulated by the
inner `for (const dim of layer.layout.dim)` loop. -/
def layerDimSum (layer : Float32MultiArray) : ℚ :=
  (layer.layout.dim.map (fun d => (d.size : ℚ))).sum

/-- Product of a layer's declared dimension sizes (what the spec's §3
invariant talks about; the code does not compute this). -/
def layerDimProd (layer : Float32MultiArray) : ℚ :=
  (layer.layout.dim.map (fun d => (d.size : ℚ))).prod

/-- The layer validation loop of `_updateGridMapRenderable`
(lines 235–250): walk the layers in order; a layer with fewer than 2
declared dimensions fails first, otherwise a layer whose dimension-size
sum differs from `size = width * height` fails; the first failure stops
the walk. -/
def validateLayers (size : ℚ) : List Float32MultiArray → Option ShapeError
  | [] => none
  | layer :: rest =>
    if layer.layout.dim.length < 2 then
      some .insufficientDimensions
    else if layerDimSum layer ≠ size then
      some (.sizeMismatch size (layerDimSum layer))
    else
      validateLayers size rest

/-- Derived raster width: `gridMap.info.length_y / gridMap.info.resolution`. -/
def gridWidth (g : GridMap) : ℚ :=
  g.info.length_y / g.info.resolution

/-- Derived raster height: `gridMap.info.length_x / gridMap.info.resolution`. -/
def gridHeight (g : GridMap) : ℚ :=
  g.info.length_x / g.info.resolution

/-- `size = width * height` as computed in `_updateGridMapRenderable`,
`createTexture` and `updateTexture`. -/
def gridSize (g : GridMap) : ℚ :=
  gridWidth g * gridHeight g

/-- Number of iterations of the JS loop `for (let i = 0; i < size; i++)`:
the naturals strictly below the (possibly fractional) rational `size`. -/
def loopCount (size : ℚ) : ℕ :=
  (Int.ceil size).toNat

/-- The sequence of raster bytes written by the recolor loop of
`updateTexture` (lines 345–376): for each `i < size` the loop reads
`data[i]` from the grid's layer list `gridMap.data` (not from any layer's
flattened cell values), coerces it with `| 0`, and writes the four bytes
of the mapped color.  The four configured colors are parsed and converted
by `srgbToLinearUint8` once before the loop. -/
def updateTextureData (γ : ℚ → ℚ) (g : GridMap) (s : LayerSettingsGridMap) : List ℕ :=
  let minC := srgbToLinearUint8 γ s.minColor
  let maxC := srgbToLinearUint8 γ s.maxColor
  let unkC := srgbToLinearUint8 γ s.unknownColor
  let invC := srgbToLinearUint8 γ s.invalidColor
  (List.range (loopCount (gridSize g))).flatMap fun i =>
    cellBytes minC maxC unkC invC (toInt32 (toNumberOfDataElem g.data[i]?))

/-- `occupancyGridHasTransparency` from `GridMaps.ts` (lines 425–433):
parse the four configured colors (no gamma conversion is applied) and
report whether any alpha channel is below 1, in the source's order
min, max, invalid, unknown. -/
def occupancyGridHasTransparency (s : LayerSettingsGridMap) : Bool :=
  decide (s.minColor.a < 1) || decide (s.maxColor.a < 1) ||
    decide (s.invalidColor.a < 1) || decide (s.unknownColor.a < 1)

/-- A `THREE.DataTexture` as `GridMaps.ts` uses it: the backing
`Uint8ClampedArray` plus the `image.width` / `image.height` it was created
with.  `allocId` tags the identity of the allocation so that reuse versus
reallocation of the buffer object is observable in the model. -/
structure Texture where
  allocId : ℕ
  width : ℚ
  height : ℚ
  data : List ℕ
deriving DecidableEq

/-- `createTexture` (lines 281–302): derive width/height from the grid
metadata and allocate a `Uint8ClampedArray(size * 4)`.  ECMAScript
`ToIndex` truncates a fractional length toward zero (and would throw on a
negative one; the claims below restrict to grids whose derived dimensions
are naturals, where no throw occurs). -/
def createTexture (allocId : ℕ) (g : GridMap) : Texture :=
  let height := gridHeight g
  let width := gridWidth g
  let size := width * height
  { allocId := allocId
    width := width
    height := height
    data := List.replicate (ratTrunc (size * 4)).toNat 0 }

/-- `toNanoSec`.  Modelled from the spec: the helper lives in
`@foxglove/rostime` (outside `src/`); it converts a stamp to nanoseconds. -/
def toNanoSec (t : Time) : ℕ :=
  t.sec * 1000000000 + t.nsec

/-- Per-topic render state, the fields of `GridMapUserData` that
`_updateGridMapRenderable` reads or writes, plus the diagnostics slot for
the fixed code `INVALID_GRID_MAP` on this topic, an allocation counter and
the log of disposed texture buffers. -/
structure RenderState where
  gridMap : GridMap
  pose : Pose
  receiveTime : ℕ
  messageTime : ℕ
  frameId : String
  settings : LayerSettingsGridMap
  texture : Texture
  scale : ℚ × ℚ × ℚ
  diagnostic : Option ShapeError
  nextAllocId : ℕ
  disposedAllocs : List ℕ
deriving DecidableEq

/-- `_updateGridMapRenderable` (lines 219–265).  Mirrors the source's
order: the header-derived fields (`gridMap`, `pose`, `receiveTime`,
`messageTime`, `frameId`) are assigned first (lines 224–228); then the
layer shapes are validated and a failure records the diagnostic and
returns; only on success is the texture reallocated (when the derived
width or height differs from the texture's), refilled, and the scale
recomputed.  `renderer.normalizeFrameId` lives outside `src/` and is
modelled as the identity on the message's `frame_id`. -/
def updateGridMapRenderable (γ : ℚ → ℚ) (st : RenderState) (g : GridMap)
    (receiveTime : ℕ) : RenderState :=
  let st' := { st with
    gridMap := g
    pose := g.info.pose
    receiveTime := receiveTime
    messageTime := toNanoSec g.header.stamp
    frameId := g.header.frame_id }
  let resolution := g.info.resolution
  let height := g.info.length_x / resolution
  let width := g.info.length_y / resolution
  let size := width * height
  match validateLayers size g.data with
  | some e => { st' with diagnostic := some e }
  | none =>
    let realloc : Bool := width ≠ st.texture.width ∨ height ≠ st.texture.height
    let texture :=
      if realloc then createTexture st.nextAllocId g else st.texture
    let texture := { texture with data := updateTextureData γ g st.settings }
    { st' with
      texture := texture
      nextAllocId := if realloc then st.nextAllocId + 1 else st.nextAllocId
      disposedAllocs :=
        if realloc then st.disposedAllocs ++ [st.texture.allocId]
        else st.disposedAllocs
      scale := (resolution * width, resolution * height, 1) }

/-- A partially-typed `GridMapInfo`, every field optionally absent
(`PartialMessage<GridMap>["info"]`). -/
structure PartialGridMapInfo where
  resolution : Option ℚ
  length_x : Option ℚ
  length_y : Option ℚ
  pose : Option Pose
deriving DecidableEq

/-- A partially-typed header. -/
structure PartialHeader where
  stamp : Option Time
  frame_id : Option String
deriving DecidableEq

/-- A partially-typed layer. -/
structure PartialFloat32MultiArray where
  layout : Option MultiArrayLayout
  data : Option (List ℚ)
deriving DecidableEq

/-- A partially-typed incoming `GridMap` message: every field may be
absent. -/
structure PartialGridMap where
  header : Option PartialHeader
  info : Option PartialGridMapInfo
  data : Option (List PartialFloat32MultiArray)
deriving DecidableEq

/-- `normalizeHeader`.  Modelled from the spec: the helper lives in
`../normalizeMessages` (outside `src/`); missing header fields become the
zero timestamp and the empty frame id. -/
def normalizeHeader : Option PartialHeader → Header
  | none => { stamp := ⟨0, 0⟩, frame_id := "" }
  | some h => { stamp := h.stamp.getD ⟨0, 0⟩, frame_id := h.frame_id.getD "" }

/-- The identity pose: zero position, identity orientation. -/
def identityPose : Pose :=
  { position := ⟨0, 0, 0⟩, orientation := ⟨0, 0, 0, 1⟩ }

/-- `normalizePose`.  Modelled from the spec: the helper lives in
`../normalizeMessages` (outside `src/`); a missing pose becomes the
identity pose. -/
def normalizePose : Option Pose → Pose
  | none => identityPose
  | some p => p

/-- `normalizeFloat32MultiArray`.  Modelled from the spec: the function is
referenced at line 453 of `GridMaps.ts` but defined nowhere under `src/`;
following §4.1 (absence becomes a default) a missing layout or value list
becomes empty. -/
def normalizeFloat32MultiArray (l : PartialFloat32MultiArray) : Float32MultiArray :=
  { layout := l.layout.getD ⟨[], 0⟩, data := l.data.getD [] }

/-- `normalizeGridMap` (lines 442–455).  `info ?? {}` defaults the info
record, and each scalar field defaults with `?? 0`; but the layer list is
built by `message.data.map(...)` with no `?? []` default, so a message
whose `data` field is absent makes the call throw a `TypeError`
(`undefined` has no `.map`), modelled as `Except.error`. -/
def normalizeGridMap (message : PartialGridMap) : Except String GridMap :=
  let info := message.info.getD ⟨none, none, none, none⟩
  match message.data with
  | none => .error "TypeError: Cannot read properties of undefined (reading map)"
  | some ds =>
    .ok
      { header := normalizeHeader message.header
        info :=
          { resolution := info.resolution.getD 0
            length_x := info.length_x.getD 0
            length_y := info.length_y.getD 0
            pose := normalizePose info.pose }
        data := ds.map normalizeFloat32MultiArray }

/-- A declared dimension of the given size (label and stride irrelevant to
the shape check). -/
def dimOfSize (n : ℕ) : MultiArrayDimension :=
  ⟨"", n, 0⟩

/-- A layer declaring the given dimension sizes, with no cell values. -/
def layerOfSizes (ns : List ℕ) : Float32MultiArray :=
  ⟨⟨ns.map dimOfSize, 0⟩, []⟩

theorem layerOfSizes_dimSum (ns : List ℕ) :
    layerDimSum (layerOfSizes ns) = (ns.map (Nat.cast : ℕ → ℚ)).sum := by
  simp only [layerDimSum, layerOfSizes, List.map_map]
  rfl

/-- C2: the layer validation is first-failure-wins and checks, per layer
and in this order, the dimension count (< 2 fails with
`insufficientDimensions`, regardless of the remaining layers) and then the
dimension-size sum (≠ size fails with `sizeMismatch`, regardless of the
remaining layers); a passing layer defers to the rest of the list, and a
grid whose every layer passes both checks validates. -/
theorem validateLayers_spec :
    (∀ (size : ℚ) (bad : Float32MultiArray) (rest : List Float32MultiArray),
        bad.layout.dim.length < 2 →
        validateLayers size (bad :: rest) = some ShapeError.insufficientDimensions) ∧
    (∀ (size : ℚ) (bad : Float32MultiArray) (rest : List Float32MultiArray),
        2 ≤ bad.layout.dim.length → layerDimSum bad ≠ size →
        validateLayers size (bad :: rest) =
          some (ShapeError.sizeMismatch size (layerDimSum bad))) ∧
    (∀ (size : ℚ) (good : Float32MultiArray) (rest : List Float32MultiArray),
        2 ≤ good.layout.dim.length → layerDimSum good = size →
        validateLayers size (good :: rest) = validateLayers size rest) ∧
    (∀ (size : ℚ) (layers : List Float32MultiArray),
        (∀ l ∈ layers, 2 ≤ l.layout.dim.length ∧ layerDimSum l = size) →
        validateLayers size layers = none) := by
  refine ⟨?_, ?_, ?_, ?_⟩
  · intro size bad rest h
    simp [validateLayers, h]
  · intro size bad rest h2 hsum
    have h1 : ¬ bad.layout.dim.length < 2 := by omega
    simp [validateLayers, h1, hsum]
  · intro size good rest h2 hsum
    have h1 : ¬ good.layout.dim.length < 2 := by omega
    simp [validateLayers, h1, hsum]
  · intro size layers h
    induction layers with
    | nil => rfl
    | cons l rest ih =>
      obtain ⟨h2, hsum⟩ := h l (List.mem_cons_self l rest)
      have h1 : ¬ l.layout.dim.length < 2 := by omega
      simp only [validateLayers, if_neg h1, hsum, ne_eq, not_true_eq_false, if_neg,
        if_false]
      exact ih fun l' hl' => h l' (List.mem_cons_of_mem _ hl')

theorem validateLayers_spec_witness :
    validateLayers 5 [layerOfSizes []] = some ShapeError.insufficientDimensions ∧
    validateLayers 5 [layerOfSizes [1, 3]] =
      some (ShapeError.sizeMismatch 5 (layerDimSum (layerOfSizes [1, 3]))) ∧
    validateLayers 4 [layerOfSizes [2, 2], layerOfSizes [2, 2]] =
      validateLayers 4 [layerOfSizes [2, 2]] ∧
    validateLayers 4 [layerOfSizes [2, 2]] = none := by
  refine ⟨?_, ?_, ?_, ?_⟩
  · exact validateLayers_spec.1 5 (layerOfSizes []) [] (by decide)
  · exact validateLayers_spec.2.1 5 (layerOfSizes [1, 3]) [] (by decide)
      (by rw [layerOfSizes_dimSum]; norm_num)
  · exact validateLayers_spec.2.2.1 4 (layerOfSizes [2, 2]) [layerOfSizes [2, 2]]
      (by decide) (by rw [layerOfSizes_dimSum]; norm_num)
  · exact validateLayers_spec.2.2.2 4 [layerOfSizes [2, 2]]
      (by intro l hl; simp only [List.mem_singleton] at hl; subst hl
          exact ⟨by decide, by rw [layerOfSizes_dimSum]; norm_num⟩)

/-- C10 counterexample: the validator accepts a layer with declared
dimension sizes [1, 3] against a grid of size 4 (the sizes sum to 4) even
though their product is 3 ≠ 4 — acceptance does not require the product of
the declared dimension sizes to equal `width * height`. -/
theorem validateLayers_accepts_wrong_product :
    validateLayers 4 [layerOfSizes [1, 3]] = none ∧
    layerDimProd (layerOfSizes [1, 3]) ≠ 4 := by
  constructor
  · have h1 : ¬ (layerOfSizes [1, 3]).layout.dim.length < 2 := by decide
    have h2 : layerDimSum (layerOfSizes [1, 3]) = 4 := by
      rw [layerOfSizes_dimSum]; norm_num
    simp [validateLayers, h1, h2]
  · norm_num [layerDimProd, layerOfSizes, dimOfSize]

/-- C10 amended: a grid message is accepted only if every layer's SUM of
declared dimension sizes equals `width * height`; a layer whose
dimension-size sum differs invalidates the grid message. -/
theorem validateLayers_accept_iff_sum :
    (∀ (size : ℚ) (layers : List Float32MultiArray),
        validateLayers size layers = none →
        ∀ l ∈ layers, layerDimSum l = size) ∧
    (∀ (size : ℚ) (layers : List Float32MultiArray) (l : Float32MultiArray),
        l ∈ layers → layerDimSum l ≠ size →
        validateLayers size layers ≠ none) := by
  have key : ∀ (size : ℚ) (layers : List Float32MultiArray),
      validateLayers size layers = none → ∀ l ∈ layers, layerDimSum l = size := by
    intro size layers
    induction layers with
    | nil => intro _ l hl; exact absurd hl (List.not_mem_nil l)
    | cons hd rest ih =>
      intro h l hl
      by_cases h1 : hd.layout.dim.length < 2
      · simp [validateLayers, h1] at h
      · by_cases h2 : layerDimSum hd = size
        · rcases List.mem_cons.mp hl with rfl | hl'
          · exact h2
          · have h' : validateLayers size rest = none := by
              simpa [validateLayers, h1, h2] using h
            exact ih h' l hl'
        · simp [validateLayers, h1, h2] at h
  refine ⟨key, ?_⟩
  intro size layers l hl hsum hnone
  exact hsum (key size layers hnone l hl)

theorem validateLayers_accept_iff_sum_witness :
    layerDimSum (layerOfSizes [2, 2]) = 4 ∧
    validateLayers 5 [layerOfSizes [1, 3]] ≠ none := by
  constructor
  · exact validateLayers_accept_iff_sum.1 4 [layerOfSizes [2, 2]]
      (by have h1 : ¬ (layerOfSizes [2, 2]).layout.dim.length < 2 := by decide
          have h2 : layerDimSum (layerOfSizes [2, 2]) = 4 := by
            rw [layerOfSizes_dimSum]; norm_num
          simp [validateLayers, h1, h2])
      (layerOfSizes [2, 2]) (List.mem_singleton.mpr rfl)
  · exact validateLayers_accept_iff_sum.2 5 [layerOfSizes [1, 3]]
      (layerOfSizes [1, 3]) (List.mem_singleton.mpr rfl)
      (by rw [layerOfSizes_dimSum]; norm_num)

theorem toInt32_toNumberOfDataElem (x : Option Float32MultiArray) :
    toInt32 (toNumberOfDataElem x) = 0 := by
  cases x <;> rfl

theorem cellBytes_zero (minC maxC unkC invC : ColorRGBA) :
    cellBytes minC maxC unkC invC 0 =
      [toUint8Clamp minC.r, toUint8Clamp minC.g, toUint8Clamp minC.b,
       toUint8Clamp minC.a] := by
  have hz : ((0 : ℤ) : ℚ) / 100 = 0 := by norm_num
  simp only [cellBytes, cellRGBA]
  norm_num

/-- C5: the recolor loop reads `gridMap.data[i]` — an element of the layer
list, not a cell value — whose `| 0` coercion is always 0, so the produced
raster is the size-fold repetition of the linearized min color's four
bytes, whatever the layers carry. -/
theorem updateTextureData_ignores_cells (γ : ℚ → ℚ) (g : GridMap)
    (s : LayerSettingsGridMap) :
    (∀ x : Option Float32MultiArray, toInt32 (toNumberOfDataElem x) = 0) ∧
    updateTextureData γ g s =
      (List.range (loopCount (gridSize g))).flatMap (fun _ =>
        [toUint8Clamp (srgbToLinearUint8 γ s.minColor).r,
         toUint8Clamp (srgbToLinearUint8 γ s.minColor).g,
         toUint8Clamp (srgbToLinearUint8 γ s.minColor).b,
         toUint8Clamp (srgbToLinearUint8 γ s.minColor).a]) := by
  refine ⟨toInt32_toNumberOfDataElem, ?_⟩
  simp only [updateTextureData, toInt32_toNumberOfDataElem, cellBytes_zero]

/-- C6: the transparency policy, computed on the raw configured colors
with no gamma conversion, holds exactly when at least one of the four
alpha channels is strictly below 1. -/
theorem occupancyGridHasTransparency_iff (s : LayerSettingsGridMap) :
    occupancyGridHasTransparency s = true ↔
      (s.minColor.a < 1 ∨ s.maxColor.a < 1 ∨ s.unknownColor.a < 1 ∨
        s.invalidColor.a < 1) := by
  simp only [occupancyGridHasTransparency, Bool.or_eq_true, decide_eq_true_eq]
  tauto

theorem toNatCastQ (m : ℤ) (h : 0 ≤ m) : ((m.toNat : ℕ) : ℚ) = (m : ℚ) := by
  exact_mod_cast Int.toNat_of_nonneg h

theorem toUint8Clamp_nearest (q : ℚ) (h0 : 0 ≤ q) (h255 : q ≤ 255) :
    |(toUint8Clamp q : ℚ) - q| ≤ 1 / 2 := by
  unfold toUint8Clamp
  by_cases hz : q ≤ 0
  · have hq : q = 0 := le_antisymm hz h0
    rw [if_pos hz, hq]
    norm_num
  · rw [if_neg hz]
    by_cases ht : 255 ≤ q
    · have hq : q = 255 := le_antisymm h255 ht
      rw [if_pos ht, hq]
      norm_num
    · rw [if_neg ht]
      push_neg at hz ht
      have hfl : (⌊q⌋ : ℚ) ≤ q := Int.floor_le q
      have hfu : q < (⌊q⌋ : ℚ) + 1 := Int.lt_floor_add_one q
      have hfnn : 0 ≤ ⌊q⌋ := Int.floor_nonneg.mpr h0
      have hcast1 : (((⌊q⌋ + 1).toNat : ℕ) : ℚ) = (⌊q⌋ : ℚ) + 1 := by
        rw [toNatCastQ _ (by omega)]
        push_cast
        ring
      have hcast0 : ((⌊q⌋.toNat : ℕ) : ℚ) = (⌊q⌋ : ℚ) := toNatCastQ _ hfnn
      by_cases hhi : (⌊q⌋ : ℚ) + 1 / 2 < q
      · rw [if_pos hhi, hcast1, abs_le]
        constructor <;> linarith
      · rw [if_neg hhi]
        by_cases hlo : q < (⌊q⌋ : ℚ) + 1 / 2
        · rw [if_pos hlo, hcast0, abs_le]
          constructor <;> linarith
        · rw [if_neg hlo]
          push_neg at hhi hlo
          have heq : q = (⌊q⌋ : ℚ) + 1 / 2 := le_antisymm hhi hlo
          by_cases hev : ⌊q⌋ % 2 = 0
          · rw [if_pos hev, hcast0, abs_le]
            constructor <;> linarith
          · rw [if_neg hev, hcast1, abs_le]
            constructor <;> linarith

theorem toUint8Clamp_ties_even (q : ℚ) (h0 : 0 ≤ q) (h255 : q ≤ 255)
    (ht : q - (⌊q⌋ : ℚ) = 1 / 2) : toUint8Clamp q % 2 = 0 := by
  unfold toUint8Clamp
  have hfl : (⌊q⌋ : ℚ) ≤ q := Int.floor_le q
  have hfnn : 0 ≤ ⌊q⌋ := Int.floor_nonneg.mpr h0
  have hz : ¬ q ≤ 0 := by
    intro h
    have hq : q = 0 := le_antisymm h h0
    rw [hq] at ht
    norm_num at ht
  have htop : ¬ 255 ≤ q := by
    intro h
    have hq : q = 255 := le_antisymm h255 h
    rw [hq] at ht
    have h255f : (⌊(255 : ℚ)⌋ : ℚ) = 255 := by norm_num
    rw [h255f] at ht
    norm_num at ht
  rw [if_neg hz, if_neg htop]
  have hhi : ¬ ((⌊q⌋ : ℚ) + 1 / 2 < q) := by
    intro h; linarith [ht]
  have hlo : ¬ (q < (⌊q⌋ : ℚ) + 1 / 2) := by
    intro h; linarith [ht]
  rw [if_neg hhi, if_neg hlo]
  by_cases hev : ⌊q⌋ % 2 = 0
  · rw [if_pos hev]
    omega
  · rw [if_neg hev]
    omega

/-- C9 counterexample: with the min color linearized to (0,0,0,255) and
the max color to (255,255,255,255), cell value 50 interpolates the red
channel to 255/2 = 127.5, and the byte actually written is 128 — the
`Uint8ClampedArray` store rounds to nearest — whereas truncation would
give 127. -/
theorem cellBytes_not_truncation :
    cellBytes ⟨0, 0, 0, 255⟩ ⟨255, 255, 255, 255⟩ ⟨128, 128, 128, 255⟩
        ⟨255, 0, 255, 255⟩ 50 = [128, 128, 128, 255] ∧
    (cellRGBA ⟨0, 0, 0, 255⟩ ⟨255, 255, 255, 255⟩ ⟨128, 128, 128, 255⟩
        ⟨255, 0, 255, 255⟩ 50).r = 255 / 2 ∧
    ratTrunc (255 / 2) = 127 := by
  refine ⟨?_, ?_, ?_⟩
  · norm_num [cellBytes, cellRGBA, toUint8Clamp]
    decide
  · norm_num [cellRGBA]
  · norm_num [ratTrunc]

/-- C9 amended: for every cell in the valid range, the byte written to the
raster is the `Uint8ClampedArray` store conversion of the interpolated
channel value — the nearest integer (within 1/2), ties resolved to the
even neighbor — not its truncation toward zero. -/
theorem cellBytes_rounds_to_nearest (minC maxC unkC invC : ColorRGBA) (value : ℤ)
    (h0 : 0 ≤ (cellRGBA minC maxC unkC invC value).r)
    (h255 : (cellRGBA minC maxC unkC invC value).r ≤ 255) :
    |((cellBytes minC maxC unkC invC value).headD 0 : ℚ) -
        (cellRGBA minC maxC unkC invC value).r| ≤ 1 / 2 ∧
    ((cellRGBA minC maxC unkC invC value).r -
        (⌊(cellRGBA minC maxC unkC invC value).r⌋ : ℚ) = 1 / 2 →
      (cellBytes minC maxC unkC invC value).headD 0 % 2 = 0) := by
  have hhead : (cellBytes minC maxC unkC invC value).headD 0 =
      toUint8Clamp (cellRGBA minC maxC unkC invC value).r := rfl
  rw [hhead]
  exact ⟨toUint8Clamp_nearest _ h0 h255, toUint8Clamp_ties_even _ h0 h255⟩

theorem cellBytes_rounds_to_nearest_witness :
    |((cellBytes ⟨0, 0, 0, 255⟩ ⟨255, 255, 255, 255⟩ ⟨128, 128, 128, 255⟩
        ⟨255, 0, 255, 255⟩ 50).headD 0 : ℚ) -
      (cellRGBA ⟨0, 0, 0, 255⟩ ⟨255, 255, 255, 255⟩ ⟨128, 128, 128, 255⟩
        ⟨255, 0, 255, 255⟩ 50).r| ≤ 1 / 2 ∧
    (cellBytes ⟨0, 0, 0, 255⟩ ⟨255, 255, 255, 255⟩ ⟨128, 128, 128, 255⟩
        ⟨255, 0, 255, 255⟩ 50).headD 0 % 2 = 0 := by
  have h := cellBytes_rounds_to_nearest ⟨0, 0, 0, 255⟩ ⟨255, 255, 255, 255⟩
    ⟨128, 128, 128, 255⟩ ⟨255, 0, 255, 255⟩ 50
    (by norm_num [cellRGBA]) (by norm_num [cellRGBA])
  refine ⟨h.1, h.2 ?_⟩
  norm_num [cellRGBA]

/-- The default display settings, as parsed colors (white min, black max,
gray unknown, magenta invalid, all opaque). -/
def sampleSettings : LayerSettingsGridMap :=
  { visible := false
    frameLocked := false
    minColor := ⟨1, 1, 1, 1⟩
    maxColor := ⟨0, 0, 0, 1⟩
    unknownColor := ⟨1 / 2, 1 / 2, 1 / 2, 1⟩
    invalidColor := ⟨1, 0, 1, 1⟩ }

/-- A 2×2 grid with no layers (trivially valid). -/
def sampleGrid0 : GridMap :=
  { header := ⟨⟨0, 0⟩, ""⟩, info := ⟨1, 2, 2, identityPose⟩, data := [] }

def poseA : Pose :=
  ⟨⟨1, 2, 3⟩, ⟨0, 0, 0, 1⟩⟩

/-- A 2×2 grid carrying a layer with a single declared dimension, so the
shape check fails with `insufficientDimensions`.  Its pose, stamp and
frame id all differ from `sampleState`'s. -/
def badGrid : GridMap :=
  { header := ⟨⟨7, 8⟩, "lidar"⟩, info := ⟨1, 2, 2, poseA⟩, data := [layerOfSizes [1]] }

/-- A valid 2×2 grid (layer sizes [2,2] sum to 4). -/
def validGridSame : GridMap :=
  { header := ⟨⟨1, 2⟩, "map"⟩, info := ⟨1, 2, 2, poseA⟩, data := [layerOfSizes [2, 2]] }

/-- A valid 3×3 grid (layer sizes [4,5] sum to 9). -/
def validGridResize : GridMap :=
  { header := ⟨⟨1, 2⟩, "map"⟩, info := ⟨1, 3, 3, poseA⟩, data := [layerOfSizes [4, 5]] }

/-- A per-topic state as it stands after a first valid 2×2 message:
texture 0 is live, allocation counter at 1. -/
def sampleState : RenderState :=
  { gridMap := sampleGrid0
    pose := identityPose
    receiveTime := 0
    messageTime := 0
    frameId := "base"
    settings := sampleSettings
    texture := ⟨0, 2, 2, List.replicate 16 0⟩
    scale := (2, 2, 1)
    diagnostic := none
    nextAllocId := 1
    disposedAllocs := [] }

/-- C3 counterexample: a message that fails validation still overwrites
the topic's `gridMap`, `pose` and `frameId` (they are assigned before the
shape check), so the prior per-topic state is not left exactly as it was —
only the raster buffer survives. -/
theorem updateGridMapRenderable_mutates_before_validation :
    validateLayers (gridSize badGrid) badGrid.data =
      some ShapeError.insufficientDimensions ∧
    (updateGridMapRenderable (fun q => q) sampleState badGrid 5).texture =
      sampleState.texture ∧
    (updateGridMapRenderable (fun q => q) sampleState badGrid 5).pose ≠
      sampleState.pose ∧
    (updateGridMapRenderable (fun q => q) sampleState badGrid 5).frameId ≠
      sampleState.frameId ∧
    (updateGridMapRenderable (fun q => q) sampleState badGrid 5).gridMap ≠
      sampleState.gridMap := by
  refine ⟨?_, ?_, ?_, ?_, ?_⟩ <;> decide

/-- C3 amended: when validation of an incoming message fails, a
diagnostic is recorded and the raster buffer, scale, settings and
allocation bookkeeping are left unchanged, but the topic's `gridMap`,
`pose`, `receiveTime`, `messageTime` and `frameId` have already been
overwritten with the incoming message's values. -/
theorem updateGridMapRenderable_failure (γ : ℚ → ℚ) (st : RenderState) (g : GridMap)
    (t : ℕ) (e : ShapeError)
    (h : validateLayers (gridSize g) g.data = some e) :
    (updateGridMapRenderable γ st g t).texture = st.texture ∧
    (updateGridMapRenderable γ st g t).scale = st.scale ∧
    (updateGridMapRenderable γ st g t).diagnostic = some e ∧
    (updateGridMapRenderable γ st g t).gridMap = g ∧
    (updateGridMapRenderable γ st g t).pose = g.info.pose ∧
    (updateGridMapRenderable γ st g t).receiveTime = t ∧
    (updateGridMapRenderable γ st g t).messageTime = toNanoSec g.header.stamp ∧
    (updateGridMapRenderable γ st g t).frameId = g.header.frame_id ∧
    (updateGridMapRenderable γ st g t).settings = st.settings ∧
    (updateGridMapRenderable γ st g t).nextAllocId = st.nextAllocId ∧
    (updateGridMapRenderable γ st g t).disposedAllocs = st.disposedAllocs := by
  have h' : validateLayers
      (g.info.length_y / g.info.resolution * (g.info.length_x / g.info.resolution))
      g.data = some e := by
    simpa [gridSize, gridWidth, gridHeight] using h
  simp [updateGridMapRenderable, h']

theorem updateGridMapRenderable_failure_witness :
    (updateGridMapRenderable (fun q => q) sampleState badGrid 5).scale =
      sampleState.scale ∧
    (updateGridMapRenderable (fun q => q) sampleState badGrid 5).diagnostic =
      some ShapeError.insufficientDimensions := by
  have h := updateGridMapRenderable_failure (fun q => q) sampleState badGrid 5
    ShapeError.insufficientDimensions (by decide)
  exact ⟨h.2.1, h.2.2.1⟩

/-- C7: on a valid message, the texture is reallocated exactly when the
derived width or height differs from the live texture's: with unchanged
dimensions the same allocation is kept (and refilled in place, with no
disposal), and with changed dimensions a fresh allocation sized to the new
dimensions replaces it and the old buffer is disposed. -/
theorem updateGridMapRenderable_realloc_iff (γ : ℚ → ℚ) (st : RenderState)
    (g : GridMap) (t : ℕ)
    (h : validateLayers (gridSize g) g.data = none) :
    ((gridWidth g = st.texture.width ∧ gridHeight g = st.texture.height) →
      (updateGridMapRenderable γ st g t).texture.allocId = st.texture.allocId ∧
      (updateGridMapRenderable γ st g t).texture.width = st.texture.width ∧
      (updateGridMapRenderable γ st g t).texture.height = st.texture.height ∧
      (updateGridMapRenderable γ st g t).disposedAllocs = st.disposedAllocs ∧
      (updateGridMapRenderable γ st g t).nextAllocId = st.nextAllocId) ∧
    (¬ (gridWidth g = st.texture.width ∧ gridHeight g = st.texture.height) →
      (updateGridMapRenderable γ st g t).texture.allocId = st.nextAllocId ∧
      (updateGridMapRenderable γ st g t).texture.width = gridWidth g ∧
      (updateGridMapRenderable γ st g t).texture.height = gridHeight g ∧
      (updateGridMapRenderable γ st g t).disposedAllocs =
        st.disposedAllocs ++ [st.texture.allocId] ∧
      (updateGridMapRenderable γ st g t).nextAllocId = st.nextAllocId + 1) ∧
    (updateGridMapRenderable γ st g t).texture.data =
      updateTextureData γ g st.settings := by
  have h' : validateLayers
      (g.info.length_y / g.info.resolution * (g.info.length_x / g.info.resolution))
      g.data = none := by
    simpa [gridSize, gridWidth, gridHeight] using h
  refine ⟨?_, ?_, ?_⟩
  · rintro ⟨hw, hh⟩
    rw [gridWidth] at hw
    rw [gridHeight] at hh
    rw [hw, hh] at h'
    simp [updateGridMapRenderable, h', hw, hh]
  · intro hcond
    have hcond' : g.info.length_y / g.info.resolution ≠ st.texture.width ∨
        g.info.length_x / g.info.resolution ≠ st.texture.height := by
      rw [gridWidth, gridHeight] at hcond
      tauto
    simp [updateGridMapRenderable, h', hcond', createTexture, gridWidth, gridHeight]
  · by_cases hcond : g.info.length_y / g.info.resolution = st.texture.width ∧
        g.info.length_x / g.info.resolution = st.texture.height
    · obtain ⟨hw, hh⟩ := hcond
      rw [hw, hh] at h'
      simp [updateGridMapRenderable, h', hw, hh]
    · have hcond' : g.info.length_y / g.info.resolution ≠ st.texture.width ∨
          g.info.length_x / g.info.resolution ≠ st.texture.height := by tauto
      simp [updateGridMapRenderable, h', hcond', createTexture]

theorem validGridSame_valid :
    validateLayers (gridSize validGridSame) validGridSame.data = none := by
  have hs : gridSize validGridSame = 4 := by
    norm_num [gridSize, gridWidth, gridHeight, validGridSame]
  rw [hs]
  have h1 : ¬ (layerOfSizes [2, 2]).layout.dim.length < 2 := by decide
  have h2 : layerDimSum (layerOfSizes [2, 2]) = 4 := by
    rw [layerOfSizes_dimSum]
    norm_num
  show validateLayers 4 [layerOfSizes [2, 2]] = none
  simp [validateLayers, h1, h2]

theorem validGridResize_valid :
    validateLayers (gridSize validGridResize) validGridResize.data = none := by
  have hs : gridSize validGridResize = 9 := by
    norm_num [gridSize, gridWidth, gridHeight, validGridResize]
  rw [hs]
  have h1 : ¬ (layerOfSizes [4, 5]).layout.dim.length < 2 := by decide
  have h2 : layerDimSum (layerOfSizes [4, 5]) = 9 := by
    rw [layerOfSizes_dimSum]
    norm_num
  show validateLayers 9 [layerOfSizes [4, 5]] = none
  simp [validateLayers, h1, h2]

theorem validGridSame_dims :
    gridWidth validGridSame = sampleState.texture.width ∧
    gridHeight validGridSame = sampleState.texture.height := by
  constructor <;> norm_num [gridWidth, gridHeight, validGridSame, sampleState]

theorem validGridResize_dims :
    ¬ (gridWidth validGridResize = sampleState.texture.width ∧
        gridHeight validGridResize = sampleState.texture.height) := by
  intro hc
  have := hc.1
  norm_num [gridWidth, validGridResize, sampleState] at this

theorem updateGridMapRenderable_realloc_iff_witness :
    (updateGridMapRenderable (fun q => q) sampleState validGridSame 5).texture.allocId =
      sampleState.texture.allocId ∧
    (updateGridMapRenderable (fun q => q) sampleState validGridResize 5).texture.allocId =
      sampleState.nextAllocId ∧
    (updateGridMapRenderable (fun q => q) sampleState validGridResize 5).disposedAllocs =
      sampleState.disposedAllocs ++ [sampleState.texture.allocId] := by
  have h1 := updateGridMapRenderable_realloc_iff (fun q => q) sampleState
    validGridSame 5 validGridSame_valid
  have h2 := updateGridMapRenderable_realloc_iff (fun q => q) sampleState
    validGridResize 5 validGridResize_valid
  exact ⟨(h1.1 validGridSame_dims).1, (h2.2.1 validGridResize_dims).1,
    (h2.2.1 validGridResize_dims).2.2.2.1⟩

/-- C8: for a grid whose derived dimensions are (non-negative integral)
naturals `w` and `h`, the allocated raster has length `w * h * 4`, and `w`
and `h` are the roundings of `length_y / resolution` and
`length_x / resolution` respectively. -/
theorem createTexture_raster_size (alloc : ℕ) (g : GridMap) (w h : ℕ)
    (hw : gridWidth g = (w : ℚ)) (hh : gridHeight g = (h : ℚ)) :
    (createTexture alloc g).data.length = w * h * 4 ∧
    ((w : ℕ) : ℤ) = round (gridWidth g) ∧
    ((h : ℕ) : ℤ) = round (gridHeight g) := by
  refine ⟨?_, ?_, ?_⟩
  · simp only [createTexture, List.length_replicate, gridWidth, gridHeight] at *
    rw [hw, hh]
    have hq : ((w : ℚ)) * (h : ℚ) * 4 = ((w * h * 4 : ℕ) : ℚ) := by
      push_cast
      ring
    rw [hq, ratTrunc, if_pos (by positivity), Int.floor_natCast]
    exact Int.toNat_natCast _
  · rw [hw, round_natCast]
  · rw [hh, round_natCast]

/-- A 2×3 grid: resolution 1, `length_x` 2 and `length_y` 3, so the
derived width is 3 and height is 2. -/
def gridWide : GridMap :=
  { header := ⟨⟨0, 0⟩, ""⟩, info := ⟨1, 2, 3, identityPose⟩, data := [] }

theorem createTexture_raster_size_witness :
    (createTexture 0 gridWide).data.length = 3 * 2 * 4 ∧
    ((3 : ℕ) : ℤ) = round (gridWidth gridWide) ∧
    ((2 : ℕ) : ℤ) = round (gridHeight gridWide) :=
  createTexture_raster_size 0 gridWide 3 2
    (by norm_num [gridWidth, gridWide])
    (by norm_num [gridHeight, gridWide])

/-- C4: the decoder does fail on a partial message whose `data` field is
absent — `message.data.map(...)` has no `?? []` default, so the call
throws — while a message with `data` present gets all the documented
defaults (zero resolution and extents, identity pose, zero stamp, empty
frame id). -/
theorem normalizeGridMap_missing_data_fails :
    normalizeGridMap ⟨none, none, none⟩ =
      Except.error "TypeError: Cannot read properties of undefined (reading map)" ∧
    normalizeGridMap ⟨none, none, some []⟩ =
      Except.ok
        { header := { stamp := ⟨0, 0⟩, frame_id := "" }
          info := { resolution := 0, length_x := 0, length_y := 0,
                    pose := identityPose }
          data := [] } :=
  ⟨rfl, rfl⟩

end GridMaps
